import Mathlib

/-!
Verification development for the homework-status Telegram bot
(`homework.py`, `exeptions.py`).

The Python source is shallowly embedded: JSON payloads (the values returned
by `response.json()`) become the inductive type `JVal`; Python dictionaries
are association lists; fallible Python functions become `Except PyErr`
computations; the poll loop of `main` becomes a pure state-transition
function `cycle` over `LoopState`, driven by a `CycleEnv` that supplies the
outcomes of the two HTTP fetches of each iteration.
-/

/-- A JSON value as decoded by `response.json()` in Python: `None`, an
integer, a string, a list, or a dictionary (association list of string keys,
unique by construction of JSON decoding). -/
inductive JVal where
  | jnull : JVal
  | jint (n : Int) : JVal
  | jstr (s : String) : JVal
  | jlist (xs : List JVal) : JVal
  | jdict (kvs : List (String × JVal)) : JVal

mutual

/-- Python `==` on decoded JSON values: structural equality (dictionaries are
compared entrywise in decoded order; JSON decoding yields unique keys, and
every payload in this development keeps a fixed key order). -/
def jvalBeq : JVal → JVal → Bool
  | .jnull, .jnull => true
  | .jint m, .jint n => m == n
  | .jstr a, .jstr b => a == b
  | .jlist xs, .jlist ys => jvalBeqList xs ys
  | .jdict a, .jdict b => jvalBeqDict a b
  | _, _ => false

def jvalBeqList : List JVal → List JVal → Bool
  | [], [] => true
  | x :: xs, y :: ys => jvalBeq x y && jvalBeqList xs ys
  | _, _ => false

def jvalBeqDict : List (String × JVal) → List (String × JVal) → Bool
  | [], [] => true
  | (k, v) :: xs, (k2, v2) :: ys => k == k2 && jvalBeq v v2 && jvalBeqDict xs ys
  | _, _ => false

end

/-- Python truthiness (`bool(v)`): `None`, `0`, `""`, `[]` and `{}` are
falsy, everything else is truthy. -/
def pyTruthy : JVal → Bool
  | .jnull => false
  | .jint n => !(n == 0)
  | .jstr s => !(s == "")
  | .jlist xs => !xs.isEmpty
  | .jdict kvs => !kvs.isEmpty

/-- `d.get(k)` on a Python dictionary: the value at `k`, or `None` when the
key is absent. -/
def dictGet (kvs : List (String × JVal)) (k : String) : JVal :=
  match kvs.find? (fun p => p.1 == k) with
  | some p => p.2
  | none => .jnull

/-- `k in d` on a Python dictionary: key membership. -/
def containsKey (kvs : List (String × JVal)) (k : String) : Bool :=
  kvs.any (fun p => p.1 == k)

/-- The kinds of exception that the embedded code can raise.  `typeError`,
`keyError` and `attributeError` are Python built-ins; `currentDateDoesNotExists`,
`emptyDictionaryOrListError`, `undocumentedStatusError`, `wrongResponseCode`
and `notTelegramError` are the project's own classes imported from
`exeptions.py`; `requestException` stands for the transport-level exceptions
of the `requests` library and `jsonDecodeError` for a body that is not
decodable as JSON. -/
inductive ErrKind where
  | typeError
  | keyError
  | attributeError
  | currentDateDoesNotExists
  | emptyDictionaryOrListError
  | undocumentedStatusError
  | wrongResponseCode
  | notTelegramError
  | requestException
  | jsonDecodeError
deriving DecidableEq, Repr

/-- A raised Python exception: its class (`kind`) together with its rendered
message (`msg`).  The pair is the error signature of the spec. -/
structure PyErr where
  kind : ErrKind
  msg : String
deriving DecidableEq, Repr

mutual

/-- Python `str()` rendering, used by the source's f-strings.  Exact for
`None`, integers and strings (the cases the code actually interpolates);
containers are rendered structurally, without Python's quoting of nested
strings. -/
def pyStr : JVal → String
  | .jnull => "None"
  | .jint n => toString n
  | .jstr s => s
  | .jlist xs => "[" ++ pyStrList xs ++ "]"
  | .jdict kvs => "\x7b" ++ pyStrDict kvs ++ "\x7d"

def pyStrList : List JVal → String
  | [] => ""
  | [x] => pyStr x
  | x :: y :: xs => pyStr x ++ ", " ++ pyStrList (y :: xs)

def pyStrDict : List (String × JVal) → String
  | [] => ""
  | [(k, v)] => k ++ ": " ++ pyStr v
  | (k, v) :: q :: xs => k ++ ": " ++ pyStr v ++ ", " ++ pyStrDict (q :: xs)

end

/-- `v.get(k)` on an arbitrary Python value: dictionaries support `.get`,
every other value raises `AttributeError`. -/
def pyGetE (v : JVal) (k : String) : Except PyErr JVal :=
  match v with
  | .jdict kvs => .ok (dictGet kvs k)
  | _ => .error ⟨.attributeError, "object has no attribute get"⟩

/-- `HOMEWORK_VERDICTS` from `homework.py`: the verdict vocabulary of the
code and the human-readable text attached to each verdict. -/
def HOMEWORK_VERDICTS : List (String × String) :=
  [("approved", "Работа проверена: ревьюеру всё понравилось. Ура!"),
   ("reviewing", "Работа взята на проверку ревьюером."),
   ("rejected", "Работа проверена: у ревьюера есть замечания.")]

/-- `v in HOMEWORK_VERDICTS` in Python: membership of the value among the
dictionary's keys; only a string can equal a string key. -/
def statusInVerdicts (v : JVal) : Bool :=
  match v with
  | .jstr s => HOMEWORK_VERDICTS.any (fun p => p.1 == s)
  | _ => false

/-- `HOMEWORK_VERDICTS[verdict]`: lookup of a verdict's text.  The code only
evaluates it after checking membership, so the default is never reached on
any executed path. -/
def verdictText (v : JVal) : String :=
  match v with
  | .jstr s =>
      match HOMEWORK_VERDICTS.find? (fun p => p.1 == s) with
      | some p => p.2
      | none => ""
  | _ => ""

/-- `check_response` (homework.py lines 97-120): validates the decoded API
response.  In source order: not a dict raises `TypeError`; a falsy
`current_date` (absent, `None` or `0`) raises `CurrentDateDoesNotExists`;
a `homeworks` field that is not a list raises `TypeError`; an empty
`homeworks` list raises `KeyError`; a (dead) final guard raises
`EmptyDictionaryOrListError`; otherwise the homework list is returned. -/
def check_response (response : JVal) : Except PyErr (List JVal) :=
  match response with
  | .jdict kvs =>
      if !pyTruthy (dictGet kvs "current_date") then
        .error ⟨.currentDateDoesNotExists, "В ответе нет текущей даты"⟩
      else
        match dictGet kvs "homeworks" with
        | .jlist homework_response =>
            if homework_response.isEmpty then
              .error ⟨.keyError, "в " ++ pyStr response ++ "  пустой JSON"⟩
            else
              if !containsKey kvs "homeworks" || !containsKey kvs "current_date" then
                .error ⟨.emptyDictionaryOrListError, "Нет ключа homeworks в ответе API"⟩
              else
                .ok homework_response
        | _ =>
            .error ⟨.typeError,
              "при получении ответа от api " ++ pyStr response ++
              "в словаре нет домашней работы или она не является листом "⟩
  | _ =>
      .error ⟨.typeError,
        "при получении ответа от api " ++ pyStr response ++ " пришёл не словарь "⟩

/-- `parse_status` (homework.py lines 123-142): renders the notification text
for one homework record.  A non-dict record raises `AttributeError` at the
first `.get` (line 125); then in source order: missing `status` key raises
`KeyError`; a status outside `HOMEWORK_VERDICTS` raises `KeyError`; missing
`homework_name` raises `KeyError`; a falsy verdict would raise
`UndocumentedStatusError` (line 135-136); otherwise the message is built from
the name, the raw verdict and its `HOMEWORK_VERDICTS` text. -/
def parse_status (homework : JVal) : Except PyErr String :=
  match homework with
  | .jdict kvs =>
      if !containsKey kvs "status" then
        .error ⟨.keyError, "Статус отсутствует в homeworks"⟩
      else if !statusInVerdicts (dictGet kvs "status") then
        .error ⟨.keyError, "В домашней работе нет соответствующего статуса"⟩
      else if !containsKey kvs "homework_name" then
        .error ⟨.keyError, "Имя работы не найдено в домашней работе."⟩
      else
        let verdict := dictGet kvs "status"
        let homework_name := dictGet kvs "homework_name"
        let message := verdictText verdict
        if !pyTruthy verdict then
          .error ⟨.undocumentedStatusError, "Неожиданный статус домашней работы"⟩
        else
          .ok ("Изменился статус проверки работы \"" ++ pyStr homework_name ++
               "\"" ++ " " ++ pyStr verdict ++ " " ++ message)
  | _ => .error ⟨.attributeError, "object has no attribute get"⟩

/-- `ENDPOINT` from homework.py line 25. -/
def ENDPOINT : String := "https://practicum.yandex.ru/api/user_api/homework_statuses/"

/-- `RETRY_PERIOD` from homework.py line 24: the fixed sleep between cycles,
in seconds. -/
def RETRY_PERIOD : Nat := 60 * 10

/-- The observable part of an HTTP response delivered by `requests.get`:
status code, reason phrase, raw body text, and the decoded JSON body
(`none` when the body is not decodable). -/
structure HttpResponse where
  status_code : Nat
  reason : String
  text : String
  body : Option JVal

/-- The outcome of one `requests.get` call, supplied by the environment:
either a transport-level exception (carrying its message) or a response. -/
abbrev NetResult := Except String HttpResponse

/-- Line 70 of `get_api_answer`: `timestamp = current_timestamp or
int(time.time())` — a falsy cursor (including `0` and `None`) is replaced by
the current wall-clock time; the result is the `from_date` request
parameter. -/
def requestFromDate (current_timestamp : JVal) (now : Int) : JVal :=
  if pyTruthy current_timestamp then current_timestamp else .jint now

/-- `get_api_answer` (homework.py lines 65-94): performs the authenticated
fetch.  Inside the `try`: a non-200 status raises `WrongResponseCode` with a
diagnostic message; an undecodable body raises the JSON decode error; a
transport failure raises the `requests` exception.  The enclosing
`except Exception` catches every one of these (including the inner
`WrongResponseCode` itself) and re-raises `WrongResponseCode(message, error)`;
its rendering is modelled as the message followed by the wrapped cause's
message.  `now` models `int(time.time())` at this call and `net` the outcome
of `requests.get`. -/
def get_api_answer (current_timestamp : JVal) (now : Int) (net : NetResult) :
    Except PyErr JVal :=
  let timestamp := requestFromDate current_timestamp now
  let tryResult : Except PyErr JVal :=
    match net with
    | .error emsg => .error ⟨.requestException, emsg⟩
    | .ok response =>
        if response.status_code ≠ 200 then
          .error ⟨.wrongResponseCode,
            "Ответ API не возвращает 200. Код ответа: " ++
            toString response.status_code ++ ". Причина: " ++ response.reason ++
            ". Текст: " ++ response.text ++ "."⟩
        else
          match response.body with
          | some j => .ok j
          | none => .error ⟨.jsonDecodeError, "Expecting value"⟩
  match tryResult with
  | .ok j => .ok j
  | .error e =>
      .error ⟨.wrongResponseCode,
        "API не возвращает 200. Запрос: " ++ ENDPOINT ++
        ", HEADERS, from_date=" ++ pyStr timestamp ++ ". | " ++ e.msg⟩

/-- The loop-local mutable state of `main` (lines 160-161): the cursor
`timestamp` and the last record sent on, `preview_api_response`
(initially Python `None`, i.e. `.jnull`). -/
structure LoopState where
  timestamp : JVal
  preview_api_response : JVal

/-- The environment of one loop iteration: the wall-clock time and the
network outcome at each of the two `get_api_answer` calls (lines 164 and
166). -/
structure CycleEnv where
  now1 : Int
  net1 : NetResult
  now2 : Int
  net2 : NetResult

/-- The observable outcome of the `try` block of one loop iteration: the
loop state as mutated so far, the messages passed to `send_message`, and the
exception that escaped the block, if any. -/
structure TryOut where
  state : LoopState
  sent : List String
  err : Option PyErr

/-- The `try` block of the loop body of `main` (lines 163-180), in source
order: first fetch; `timestamp = response.get('current_date')` (an
`AttributeError` if the body does not support `.get`); second fetch with the
updated cursor; `check_response`; if the homework list is non-empty,
`parse_status` on its first element, and `send_message` plus the update of
`preview_api_response` exactly when the record differs (`!=`) from the
stored one; an empty list only logs.  An exception leaves the block at once,
keeping every mutation already made. -/
def cycleTry (s : LoopState) (env : CycleEnv) : TryOut :=
  match get_api_answer s.timestamp env.now1 env.net1 with
  | .error e => ⟨s, [], some e⟩
  | .ok response =>
    match pyGetE response "current_date" with
    | .error e => ⟨s, [], some e⟩
    | .ok ts =>
      let s1 : LoopState := ⟨ts, s.preview_api_response⟩
      match get_api_answer ts env.now2 env.net2 with
      | .error e => ⟨s1, [], some e⟩
      | .ok api_answer =>
        match check_response api_answer with
        | .error e => ⟨s1, [], some e⟩
        | .ok homeworks =>
          match homeworks with
          | [] => ⟨s1, [], none⟩
          | homework :: _ =>
            match parse_status homework with
            | .error e => ⟨s1, [], some e⟩
            | .ok message =>
              if jvalBeq homework s1.preview_api_response then
                ⟨s1, [], none⟩
              else
                ⟨⟨ts, homework⟩, [message], none⟩

/-- The outcome of one full loop iteration: final state, the messages passed
to `send_message`, the unconditional sleep of the `finally` clause, and the
exception the handlers caught, if any. -/
structure CycleResult where
  state : LoopState
  sent : List String
  sleep : Nat
  err : Option PyErr

/-- One full iteration of the `while True` loop of `main` (lines 162-191):
the `try` block, then `except NotTelegramError` (log only), then
`except Exception` (send the alert `f'Сбой в работе программы: {error}'`),
then `finally: time.sleep(RETRY_PERIOD)`. -/
def cycle (s : LoopState) (env : CycleEnv) : CycleResult :=
  let t := cycleTry s env
  match t.err with
  | none => ⟨t.state, t.sent, RETRY_PERIOD, none⟩
  | some e =>
      if e.kind = ErrKind.notTelegramError then
        ⟨t.state, t.sent, RETRY_PERIOD, some e⟩
      else
        ⟨t.state, t.sent ++ ["Сбой в работе программы: " ++ e.msg], RETRY_PERIOD, some e⟩

/-- The loop of `main`, run for one environment per iteration, threading the
loop state and recording each iteration's outcome. -/
def runCycles : LoopState → List CycleEnv → List CycleResult
  | _, [] => []
  | s, env :: rest =>
      let r := cycle s env
      r :: runCycles r.state rest

/-- Whether `parse_status` raises `UndocumentedStatusError` on this record. -/
def raisesUndocumentedStatus (homework : JVal) : Bool :=
  match parse_status homework with
  | .error e => e.kind == ErrKind.undocumentedStatusError
  | .ok _ => false

/-- Fixture: a record for homework `hw1` with the in-vocabulary status
`approved`. -/
def hwApproved : JVal :=
  .jdict [("homework_name", .jstr "hw1"), ("status", .jstr "approved")]

/-- Fixture: a record for a different homework, `hw2`, with the same status
`approved`. -/
def hwApproved2 : JVal :=
  .jdict [("homework_name", .jstr "hw2"), ("status", .jstr "approved")]

/-- Fixture: a record whose status `accepted` is the one named by the spec
but absent from the code's `HOMEWORK_VERDICTS`. -/
def hwAccepted : JVal :=
  .jdict [("homework_name", .jstr "hw1"), ("status", .jstr "accepted")]

/-- Fixture: a record whose status `archived` is outside every vocabulary. -/
def hwArchived : JVal :=
  .jdict [("homework_name", .jstr "x"), ("status", .jstr "archived")]

/-- Fixture: payload with one `approved` record and `current_date = 1000`. -/
def payloadApproved : JVal :=
  .jdict [("homeworks", .jlist [hwApproved]), ("current_date", .jint 1000)]

/-- Fixture: payload with the `hw2` record and `current_date = 2000`. -/
def payloadApproved2 : JVal :=
  .jdict [("homeworks", .jlist [hwApproved2]), ("current_date", .jint 2000)]

/-- Fixture: the payload of the spec's scenario, with status `accepted`. -/
def payloadAccepted : JVal :=
  .jdict [("homeworks", .jlist [hwAccepted]), ("current_date", .jint 1000)]

/-- Fixture: payload with the `archived` record. -/
def payloadArchived : JVal :=
  .jdict [("homeworks", .jlist [hwArchived]), ("current_date", .jint 1000)]

/-- Fixture: payload with an empty homework list and `current_date = 1000`. -/
def payloadEmpty : JVal :=
  .jdict [("homeworks", .jlist []), ("current_date", .jint 1000)]

/-- Fixture: payload with one `approved` record but a server-reported
`current_date` of `5`, earlier than any running cursor. -/
def payloadOld : JVal :=
  .jdict [("homeworks", .jlist [hwApproved]), ("current_date", .jint 5)]

/-- Fixture: a 200 response whose body decodes to the given payload. -/
def okNet (p : JVal) : NetResult := .ok ⟨200, "OK", "", some p⟩

/-- Fixture: an environment in which both fetches of the cycle return the
given payload with status 200, at wall-clock time 0. -/
def envFor (p : JVal) : CycleEnv := ⟨0, okNet p, 0, okNet p⟩

/-- Fixture: the `KeyError` that `check_response` raises on `payloadEmpty`. -/
def emptyJsonErr : PyErr :=
  ⟨.keyError, "в \x7bhomeworks: [], current_date: 1000\x7d  пустой JSON"⟩

/-- Fixture: the `KeyError` that `parse_status` raises on a status outside
`HOMEWORK_VERDICTS`. -/
def noStatusErr : PyErr :=
  ⟨.keyError, "В домашней работе нет соответствующего статуса"⟩

/-- Fixture: a failing network call. -/
def badNet : NetResult := .error "boom"

/-- Fixture: an environment in which every fetch fails at transport level. -/
def envBad : CycleEnv := ⟨0, badNet, 0, badNet⟩

/-- Fixture: the `WrongResponseCode` that `get_api_answer` raises in `envBad`
when called with cursor 777. -/
def wrongRespErr777 : PyErr :=
  ⟨.wrongResponseCode,
   "API не возвращает 200. Запрос: " ++ ENDPOINT ++
   ", HEADERS, from_date=777. | boom"⟩

/-- Fixture: the notification text `parse_status` produces for `hwApproved`. -/
def approvedMsgHw1 : String :=
  "Изменился статус проверки работы \"hw1\" approved Работа проверена: ревьюеру всё понравилось. Ура!"

/-- Fixture: the notification text `parse_status` produces for `hwApproved2`. -/
def approvedMsgHw2 : String :=
  "Изменился статус проверки работы \"hw2\" approved Работа проверена: ревьюеру всё понравилось. Ура!"

/-! ### General lemmas about the embedded loop -/

lemma statusInVerdicts_pyTruthy (v : JVal) (h : statusInVerdicts v = true) :
    pyTruthy v = true := by
  cases v <;> simp [statusInVerdicts, HOMEWORK_VERDICTS] at h
  case jstr s =>
    rcases h with rfl | rfl | rfl <;> rfl

lemma cycle_sleep (s : LoopState) (env : CycleEnv) :
    (cycle s env).sleep = RETRY_PERIOD := by
  unfold cycle
  rcases h : (cycleTry s env).err with _ | e
  · simp [h]
  · simp [h]
    split <;> rfl

lemma cycle_err (s : LoopState) (env : CycleEnv) :
    (cycle s env).err = (cycleTry s env).err := by
  unfold cycle
  rcases h : (cycleTry s env).err with _ | e
  · simp [h]
  · simp [h]
    split <;> rfl

lemma cycle_state (s : LoopState) (env : CycleEnv) :
    (cycle s env).state = (cycleTry s env).state := by
  unfold cycle
  rcases h : (cycleTry s env).err with _ | e
  · simp [h]
  · simp [h]
    split <;> rfl

lemma cycle_sent_ok (s : LoopState) (env : CycleEnv)
    (h : (cycleTry s env).err = none) :
    (cycle s env).sent = (cycleTry s env).sent := by
  unfold cycle
  simp [h]

lemma cycle_sent_error (s : LoopState) (env : CycleEnv) (e : PyErr)
    (h : (cycleTry s env).err = some e) (hk : e.kind ≠ ErrKind.notTelegramError) :
    (cycle s env).sent
      = (cycleTry s env).sent ++ ["Сбой в работе программы: " ++ e.msg] := by
  unfold cycle
  simp [h, hk]

lemma cycleTry_error_shape (s : LoopState) (env : CycleEnv) :
    (cycleTry s env).err = none
    ∨ ((cycleTry s env).sent = []
       ∧ (cycleTry s env).state.preview_api_response = s.preview_api_response) := by
  unfold cycleTry
  repeat' split
  all_goals try simp
  rename_i homework tail hcheck x message hparse
  by_cases hb : jvalBeq homework s.preview_api_response = true
  · simp [hb]
  · simp [hb]

lemma cycleTry_error_sent (s : LoopState) (env : CycleEnv) (e : PyErr)
    (h : (cycleTry s env).err = some e) : (cycleTry s env).sent = [] := by
  rcases cycleTry_error_shape s env with h0 | ⟨h1, _⟩
  · rw [h0] at h
    cases h
  · exact h1

lemma cycleTry_error_preview (s : LoopState) (env : CycleEnv) (e : PyErr)
    (h : (cycleTry s env).err = some e) :
    (cycleTry s env).state.preview_api_response = s.preview_api_response := by
  rcases cycleTry_error_shape s env with h0 | ⟨_, h2⟩
  · rw [h0] at h
    cases h
  · exact h2

lemma cycleTry_timestamp (s : LoopState) (env : CycleEnv) (response ts : JVal)
    (h1 : get_api_answer s.timestamp env.now1 env.net1 = .ok response)
    (h2 : pyGetE response "current_date" = .ok ts) :
    (cycleTry s env).state.timestamp = ts := by
  cases h3 : get_api_answer ts env.now2 env.net2 with
  | error e =>
      unfold cycleTry
      simp only [h1, h2, h3]
  | ok api =>
      cases h4 : check_response api with
      | error e =>
          unfold cycleTry
          simp only [h1, h2, h3, h4]
      | ok hws =>
          cases hws with
          | nil =>
              unfold cycleTry
              simp only [h1, h2, h3, h4]
          | cons hw rest =>
              cases h5 : parse_status hw with
              | error e =>
                  unfold cycleTry
                  simp only [h1, h2, h3, h4, h5]
              | ok msg =>
                  by_cases hb : jvalBeq hw s.preview_api_response = true
                  · unfold cycleTry
                    simp only [h1, h2, h3, h4, h5]
                    simp [hb]
                  · unfold cycleTry
                    simp only [h1, h2, h3, h4, h5]
                    simp [hb]

/-! ### Claims -/

/-- Claim C8 (confirmed): for every cycle, regardless of outcome (success,
no change, or any failure), the loop does not terminate — `runCycles`
delivers exactly one result per scheduled iteration, so no error raised
inside a cycle is fatal to the process — and the fixed sleep `RETRY_PERIOD`
of the `finally` clause is applied at the end of every cycle before the next
one begins. -/
theorem C8_fixed_sleep_loop_never_dies (s : LoopState) (envs : List CycleEnv) :
    (runCycles s envs).length = envs.length
    ∧ (runCycles s envs).all (fun r => r.sleep == RETRY_PERIOD) = true := by
  induction envs generalizing s with
  | nil => simp [runCycles]
  | cons env rest ih =>
      refine ⟨?_, ?_⟩
      · simp [runCycles, (ih (cycle s env).state).1]
      · simp [runCycles, cycle_sleep, (ih (cycle s env).state).2]

/-- Claim C9 (confirmed): the branch of `parse_status` raising
`UndocumentedStatusError` (homework.py lines 135-136) is unreachable: any
record reaching it has a status that is a key of `HOMEWORK_VERDICTS`, every
such key is a non-empty string, so the guard `if not verdict` is never
true.  Formally, `parse_status` never produces that error on any input. -/
theorem C9_undocumented_branch_unreachable (homework : JVal) :
    raisesUndocumentedStatus homework = false := by
  unfold raisesUndocumentedStatus parse_status
  cases homework with
  | jdict kvs =>
      cases hcs : containsKey kvs "status" with
      | false => simp [hcs]
      | true =>
          cases hsv : statusInVerdicts (dictGet kvs "status") with
          | false => simp [hcs, hsv]
          | true =>
              have hpt := statusInVerdicts_pyTruthy _ hsv
              cases hcn : containsKey kvs "homework_name" <;>
                simp [hcs, hsv, hcn, hpt]
  | jnull => rfl
  | jint n => rfl
  | jstr s => rfl
  | jlist xs => rfl

/-- Claim C10 (confirmed): a cursor value of 0 is treated as absent at the
public interface.  A response whose `current_date` field is present but
equal to 0 is falsy, so `check_response` raises the missing-cursor error
`CurrentDateDoesNotExists`; and a `get_api_answer` call with cursor 0
substitutes the current wall-clock time as the `from_date` parameter
(line 70, `current_timestamp or int(time.time())`). -/
theorem C10_zero_cursor_treated_as_absent :
    (∀ kvs : List (String × JVal), dictGet kvs "current_date" = .jint 0 →
      check_response (.jdict kvs)
        = .error ⟨.currentDateDoesNotExists, "В ответе нет текущей даты"⟩)
    ∧ (∀ now : Int, requestFromDate (.jint 0) now = .jint now) := by
  constructor
  · intro kvs h
    unfold check_response
    simp [h, pyTruthy]
  · intro now
    rfl

/-- Witness for C10: the response whose `current_date` is literally 0 is
rejected with the missing-cursor error, and a fetch with cursor 0 at
wall-clock time 42 requests `from_date = 42`. -/
theorem C10_zero_cursor_witness :
    check_response (.jdict [("current_date", .jint 0)])
      = .error ⟨.currentDateDoesNotExists, "В ответе нет текущей даты"⟩
    ∧ requestFromDate (.jint 0) 42 = .jint 42 :=
  ⟨C10_zero_cursor_treated_as_absent.1 [("current_date", .jint 0)] rfl,
   C10_zero_cursor_treated_as_absent.2 42⟩

/-- Claim C3 counterexample: on the exact payload of the claim —
`homeworks = [(homework_name hw1, status accepted)]`, `current_date = 1000` —
with a previously observed state `pending`, the cycle does NOT produce a
notification containing `hw1` and `accepted` and does NOT advance the
observed state: `accepted` is outside the code's `HOMEWORK_VERDICTS`
(`approved`/`reviewing`/`rejected`), so `parse_status` raises `KeyError`,
the generic handler sends only the failure alert, and the previous record is
left unchanged.  Only the cursor part of the claim holds (it advances to
1000, set before validation). -/
theorem C3_counterexample :
    cycle ⟨.jint 50, .jstr "pending"⟩ (envFor payloadAccepted)
      = ⟨⟨.jint 1000, .jstr "pending"⟩,
         ["Сбой в работе программы: " ++ noStatusErr.msg],
         RETRY_PERIOD, some noStatusErr⟩ := rfl

/-- Claim C3 (corrected): amended to the code's vocabulary.  For the payload
`homeworks = [(homework_name hw1, status approved)]`, `current_date = 1000`
(`approved` being the code's verdict where the spec wrote `accepted`), a
cycle whose stored previous record is the value `pending` sends exactly one
notification — whose text contains `hw1` and `approved` — stores the
homework record as the new previous record, and advances the cursor to
1000. -/
theorem C3_approved_scenario :
    cycle ⟨.jint 50, .jstr "pending"⟩ (envFor payloadApproved)
      = ⟨⟨.jint 1000, hwApproved⟩, [approvedMsgHw1], RETRY_PERIOD, none⟩ := rfl

/-- Claim C4 counterexample: the claim says validation of an empty
`homeworks` sequence with a present cursor does not fail; in the code
`check_response` raises `KeyError` on it (homework.py lines 115-116). -/
theorem C4_counterexample :
    check_response payloadEmpty = .error emptyJsonErr := rfl

/-- Claim C4 (corrected): an empty `homeworks` payload with a present
(truthy) cursor makes `check_response` raise `KeyError` — it is an error,
not an explicit empty result; the cycle then sends the failure alert
(instead of no notification); the cursor still advances to the first
response's `current_date`, because `main` assigns it before validation
(line 165). -/
theorem C4_empty_homeworks_is_error :
    (∀ kvs : List (String × JVal),
      dictGet kvs "homeworks" = .jlist [] →
      pyTruthy (dictGet kvs "current_date") = true →
      check_response (.jdict kvs)
        = .error ⟨.keyError, "в " ++ pyStr (.jdict kvs) ++ "  пустой JSON"⟩)
    ∧ (∀ (s : LoopState) (env : CycleEnv) (response ts api : JVal) (e : PyErr),
      get_api_answer s.timestamp env.now1 env.net1 = .ok response →
      pyGetE response "current_date" = .ok ts →
      get_api_answer ts env.now2 env.net2 = .ok api →
      check_response api = .error e →
      e.kind ≠ ErrKind.notTelegramError →
      (cycle s env).state.timestamp = ts
      ∧ (cycle s env).state.preview_api_response = s.preview_api_response
      ∧ (cycle s env).sent = ["Сбой в работе программы: " ++ e.msg]) := by
  constructor
  · intro kvs h1 h2
    unfold check_response
    simp [h1, h2]
  · intro s env response ts api e h1 h2 h3 h4 hk
    have ht : cycleTry s env = ⟨⟨ts, s.preview_api_response⟩, [], some e⟩ := by
      unfold cycleTry
      simp only [h1, h2, h3, h4]
    have hs : (cycleTry s env).err = some e := by rw [ht]
    refine ⟨by rw [cycle_state, ht], by rw [cycle_state, ht], ?_⟩
    rw [cycle_sent_error s env e hs hk, cycleTry_error_sent s env e hs]
    rfl

/-- Witness for C4 (amended): instantiated at `payloadEmpty`, cursor 50. -/
theorem C4_empty_homeworks_witness :
    check_response (.jdict [("homeworks", .jlist []), ("current_date", .jint 1000)])
      = .error ⟨.keyError,
          "в " ++ pyStr (.jdict [("homeworks", .jlist []), ("current_date", .jint 1000)])
          ++ "  пустой JSON"⟩
    ∧ ((cycle ⟨.jint 50, .jnull⟩ (envFor payloadEmpty)).state.timestamp = .jint 1000
       ∧ (cycle ⟨.jint 50, .jnull⟩ (envFor payloadEmpty)).state.preview_api_response
         = (⟨.jint 50, .jnull⟩ : LoopState).preview_api_response
       ∧ (cycle ⟨.jint 50, .jnull⟩ (envFor payloadEmpty)).sent
         = ["Сбой в работе программы: " ++ emptyJsonErr.msg]) :=
  ⟨C4_empty_homeworks_is_error.1 [("homeworks", .jlist []), ("current_date", .jint 1000)] rfl rfl,
   C4_empty_homeworks_is_error.2 ⟨.jint 50, .jnull⟩ (envFor payloadEmpty) payloadEmpty
     (.jint 1000) payloadEmpty emptyJsonErr rfl rfl rfl rfl (by decide)⟩

/-- Claim C5 counterexample: a fully successful cycle (no error caught)
whose first response reports `current_date = 5` while the cursor before the
cycle was 1000: the cursor is rewound to 5 — it is not monotonically
non-decreasing. -/
theorem C5_counterexample :
    (cycle ⟨.jint 1000, .jnull⟩ (envFor payloadOld)).err = none
    ∧ (cycle ⟨.jint 1000, .jnull⟩ (envFor payloadOld)).state.timestamp = .jint 5
    ∧ ((5 : Int) < 1000) :=
  ⟨rfl, rfl, by decide⟩

/-- Claim C5 (corrected): the code enforces no monotonicity; after any cycle
whose first fetch succeeds (and whose body supports `.get`), the cursor
equals the first response's `current_date` verbatim, so it is non-decreasing
only under the extra hypothesis that the server-reported date is at least
the previous cursor. -/
theorem C5_cursor_follows_reported_date :
    ∀ (s : LoopState) (env : CycleEnv) (response ts : JVal),
      get_api_answer s.timestamp env.now1 env.net1 = .ok response →
      pyGetE response "current_date" = .ok ts →
      (cycle s env).state.timestamp = ts
      ∧ (∀ m n : Int, s.timestamp = .jint m → ts = .jint n → m ≤ n →
          ∃ k : Int, (cycle s env).state.timestamp = .jint k ∧ m ≤ k) := by
  intro s env response ts h1 h2
  refine ⟨by rw [cycle_state, cycleTry_timestamp s env response ts h1 h2], ?_⟩
  intro m n hm hn hmn
  refine ⟨n, ?_, hmn⟩
  rw [cycle_state, cycleTry_timestamp s env response ts h1 h2]
  exact hn

/-- Witness for C5 (amended): from cursor 50, the payload reporting
`current_date = 1000` moves the cursor to exactly 1000, and 50 ≤ 1000. -/
theorem C5_cursor_witness :
    (cycle ⟨.jint 50, .jnull⟩ (envFor payloadApproved)).state.timestamp = .jint 1000
    ∧ ∃ k : Int,
        (cycle ⟨.jint 50, .jnull⟩ (envFor payloadApproved)).state.timestamp = .jint k
        ∧ (50 : Int) ≤ k :=
  ⟨(C5_cursor_follows_reported_date ⟨.jint 50, .jnull⟩ (envFor payloadApproved)
      payloadApproved (.jint 1000) rfl rfl).1,
   (C5_cursor_follows_reported_date ⟨.jint 50, .jnull⟩ (envFor payloadApproved)
      payloadApproved (.jint 1000) rfl rfl).2 50 1000 rfl rfl (by decide)⟩

/-- Claim C6 counterexample: a cycle that fails at validation (empty
`homeworks` list, caught `KeyError`) nevertheless advances the cursor from
777 to 1000, because `main` assigns `timestamp` from the first response
before validating the second (line 165); so it is false that a failing cycle
leaves the cursor exactly as it was. -/
theorem C6_counterexample :
    (cycle ⟨.jint 777, .jnull⟩ (envFor payloadEmpty)).err = some emptyJsonErr
    ∧ (cycle ⟨.jint 777, .jnull⟩ (envFor payloadEmpty)).state.timestamp = .jint 1000
    ∧ jvalBeq (.jint 1000) (.jint 777) = false :=
  ⟨rfl, rfl, rfl⟩

/-- Claim C6 (corrected): on a failing cycle the observed state
(`preview_api_response`) is indeed never mutated; but the cursor is only
guaranteed unchanged when the failure occurs at the first fetch itself — if
the first fetch succeeds, the cursor has already been set to that response's
`current_date` and keeps that value even though the rest of the cycle
fails. -/
theorem C6_failure_preserves_observed_state :
    (∀ (s : LoopState) (env : CycleEnv) (e : PyErr),
      (cycle s env).err = some e →
      (cycle s env).state.preview_api_response = s.preview_api_response)
    ∧ (∀ (s : LoopState) (env : CycleEnv) (e : PyErr),
      get_api_answer s.timestamp env.now1 env.net1 = .error e →
      (cycle s env).state = s ∧ (cycle s env).err = some e) := by
  constructor
  · intro s env e h
    rw [cycle_state]
    refine cycleTry_error_preview s env e ?_
    rw [← cycle_err]
    exact h
  · intro s env e h
    have ht : cycleTry s env = ⟨s, [], some e⟩ := by
      unfold cycleTry
      simp only [h]
    exact ⟨by rw [cycle_state, ht], by rw [cycle_err, ht]⟩

/-- Witness for C6 (amended): the failing empty-payload cycle keeps the
stored record; a cycle whose first fetch fails at transport level keeps the
whole state and records the caught `WrongResponseCode`. -/
theorem C6_failure_witness :
    ((cycle ⟨.jint 777, .jnull⟩ (envFor payloadEmpty)).state.preview_api_response
      = (⟨.jint 777, .jnull⟩ : LoopState).preview_api_response)
    ∧ ((cycle ⟨.jint 777, .jnull⟩ envBad).state = ⟨.jint 777, .jnull⟩
       ∧ (cycle ⟨.jint 777, .jnull⟩ envBad).err = some wrongRespErr777) :=
  ⟨C6_failure_preserves_observed_state.1 ⟨.jint 777, .jnull⟩ (envFor payloadEmpty)
      emptyJsonErr rfl,
   C6_failure_preserves_observed_state.2 ⟨.jint 777, .jnull⟩ envBad wrongRespErr777 rfl⟩

/-- Claim C7 counterexample: for the record with raw status `archived`
(outside every vocabulary), `parse_status` raises `KeyError`
(`В домашней работе нет соответствующего статуса`), not the
`UndocumentedStatusError` that plays the spec's `UnknownStatus` role — that
branch is never taken. -/
theorem C7_counterexample :
    parse_status hwArchived = .error noStatusErr
    ∧ noStatusErr.kind = ErrKind.keyError
    ∧ raisesUndocumentedStatus hwArchived = false :=
  ⟨rfl, rfl, rfl⟩

/-- Claim C7 (corrected): a record whose status lies outside
`HOMEWORK_VERDICTS` makes change detection fail with `KeyError` (not
`UndocumentedStatusError`/`UnknownStatus`); the rest of the claim holds: the
unmapped status is never silently passed through, and the observed state is
not mutated in a cycle whose `parse_status` fails. -/
theorem C7_unmapped_status_raises_keyerror :
    (∀ kvs : List (String × JVal),
      containsKey kvs "status" = true →
      statusInVerdicts (dictGet kvs "status") = false →
      parse_status (.jdict kvs) = .error noStatusErr)
    ∧ (∀ (s : LoopState) (env : CycleEnv) (response ts api hw : JVal)
        (rest : List JVal) (e : PyErr),
        get_api_answer s.timestamp env.now1 env.net1 = .ok response →
        pyGetE response "current_date" = .ok ts →
        get_api_answer ts env.now2 env.net2 = .ok api →
        check_response api = .ok (hw :: rest) →
        parse_status hw = .error e →
        (cycle s env).state.preview_api_response = s.preview_api_response) := by
  constructor
  · intro kvs h1 h2
    unfold parse_status
    simp [h1, h2, noStatusErr]
  · intro s env response ts api hw rest e h1 h2 h3 h4 h5
    have ht : cycleTry s env = ⟨⟨ts, s.preview_api_response⟩, [], some e⟩ := by
      unfold cycleTry
      simp only [h1, h2, h3, h4, h5]
    rw [cycle_state, ht]

/-- Witness for C7 (amended): instantiated at the `archived` record and a
cycle fetching `payloadArchived` from cursor 60. -/
theorem C7_unmapped_status_witness :
    parse_status (.jdict [("homework_name", .jstr "x"), ("status", .jstr "archived")])
      = .error noStatusErr
    ∧ (cycle ⟨.jint 60, .jnull⟩ (envFor payloadArchived)).state.preview_api_response
      = (⟨.jint 60, .jnull⟩ : LoopState).preview_api_response :=
  ⟨C7_unmapped_status_raises_keyerror.1
      [("homework_name", .jstr "x"), ("status", .jstr "archived")] rfl rfl,
   C7_unmapped_status_raises_keyerror.2 ⟨.jint 60, .jnull⟩ (envFor payloadArchived)
      payloadArchived (.jint 1000) payloadArchived hwArchived [] noStatusErr
      rfl rfl rfl rfl rfl⟩

/-- Claim C1 counterexample: two records with the SAME status (`approved`)
but different names.  The claim predicts no notification and no state
mutation (mapped status equals the observed state); the code compares whole
records (`current_api_answer != preview_api_response`, line 173), so it
sends a notification and replaces the stored record. -/
theorem C1_counterexample :
    pyGetE hwApproved2 "status" = pyGetE hwApproved "status"
    ∧ cycle ⟨.jint 1000, hwApproved⟩ (envFor payloadApproved2)
      = ⟨⟨.jint 2000, hwApproved2⟩, [approvedMsgHw2], RETRY_PERIOD, none⟩ :=
  ⟨rfl, rfl⟩

/-- Claim C1 (corrected): in a cycle whose fetches, validation and parse all
succeed, a notification is sent if and only if the newest record — the whole
record, not its mapped status — differs (Python `!=`) from the previously
stored record; when they are equal nothing is sent and the stored record is
not mutated; when they differ exactly the parsed message is sent and the
stored record becomes the new record (so it changes at most once per
distinct record value). -/
theorem C1_send_iff_record_differs :
    ∀ (s : LoopState) (env : CycleEnv) (response ts api hw : JVal)
      (rest : List JVal) (msg : String),
      get_api_answer s.timestamp env.now1 env.net1 = .ok response →
      pyGetE response "current_date" = .ok ts →
      get_api_answer ts env.now2 env.net2 = .ok api →
      check_response api = .ok (hw :: rest) →
      parse_status hw = .ok msg →
      (cycle s env).err = none
      ∧ (cycle s env).sent
          = (if jvalBeq hw s.preview_api_response = true then [] else [msg])
      ∧ (cycle s env).state.preview_api_response
          = (if jvalBeq hw s.preview_api_response = true
             then s.preview_api_response else hw) := by
  intro s env response ts api hw rest msg h1 h2 h3 h4 h5
  by_cases hb : jvalBeq hw s.preview_api_response = true
  · have ht : cycleTry s env = ⟨⟨ts, s.preview_api_response⟩, [], none⟩ := by
      unfold cycleTry
      simp only [h1, h2, h3, h4, h5]
      simp [hb]
    have hn : (cycleTry s env).err = none := by rw [ht]
    refine ⟨by rw [cycle_err, ht], ?_, ?_⟩
    · rw [cycle_sent_ok s env hn, ht]
      simp [hb]
    · rw [cycle_state, ht]
      simp [hb]
  · have ht : cycleTry s env = ⟨⟨ts, hw⟩, [msg], none⟩ := by
      unfold cycleTry
      simp only [h1, h2, h3, h4, h5]
      simp [hb]
    have hn : (cycleTry s env).err = none := by rw [ht]
    refine ⟨by rw [cycle_err, ht], ?_, ?_⟩
    · rw [cycle_sent_ok s env hn, ht]
      simp [hb]
    · rw [cycle_state, ht]
      simp [hb]

/-- Witness for C1 (amended): a first observation (stored record `None`)
differs from the fetched `approved` record, so the message is sent and the
record stored. -/
theorem C1_send_iff_witness :
    (cycle ⟨.jint 50, .jnull⟩ (envFor payloadApproved)).err = none
    ∧ (cycle ⟨.jint 50, .jnull⟩ (envFor payloadApproved)).sent
        = (if jvalBeq hwApproved (LoopState.preview_api_response ⟨.jint 50, .jnull⟩) = true
           then [] else [approvedMsgHw1])
    ∧ (cycle ⟨.jint 50, .jnull⟩ (envFor payloadApproved)).state.preview_api_response
        = (if jvalBeq hwApproved (LoopState.preview_api_response ⟨.jint 50, .jnull⟩) = true
           then LoopState.preview_api_response ⟨.jint 50, .jnull⟩ else hwApproved) :=
  C1_send_iff_record_differs ⟨.jint 50, .jnull⟩ (envFor payloadApproved) payloadApproved
    (.jint 1000) payloadApproved hwApproved [] approvedMsgHw1 rfl rfl rfl rfl rfl

/-- Claim C2 counterexample: two consecutive cycles failing with the SAME
error signature (`KeyError`, same message): the code sends one alert in EACH
cycle — two alerts, not the single alert with the second suppressed that the
claim predicts.  There is no `LastError` deduplication in the code. -/
theorem C2_counterexample :
    (runCycles ⟨.jint 50, .jnull⟩ [envFor payloadEmpty, envFor payloadEmpty]).map
        (fun r => (r.sent.length, r.err))
      = [(1, some emptyJsonErr), (1, some emptyJsonErr)] := rfl

/-- Claim C2 (corrected): every failing cycle whose caught error is not a
`NotTelegramError` sends exactly one alert (`Сбой в работе программы: …`);
hence two consecutive failing cycles send two alerts whether their error
signatures match or differ — no signature-based suppression exists. -/
theorem C2_alert_every_failing_cycle :
    ∀ (s : LoopState) (env1 env2 : CycleEnv) (e1 e2 : PyErr),
      (cycle s env1).err = some e1 → e1.kind ≠ ErrKind.notTelegramError →
      (cycle (cycle s env1).state env2).err = some e2 →
      e2.kind ≠ ErrKind.notTelegramError →
      (cycle s env1).sent = ["Сбой в работе программы: " ++ e1.msg]
      ∧ (cycle (cycle s env1).state env2).sent
        = ["Сбой в работе программы: " ++ e2.msg] := by
  intro s env1 env2 e1 e2 h1 hk1 h2 hk2
  constructor
  · have hs : (cycleTry s env1).err = some e1 := by
      rw [← cycle_err]
      exact h1
    rw [cycle_sent_error s env1 e1 hs hk1, cycleTry_error_sent s env1 e1 hs]
    rfl
  · have hs : (cycleTry (cycle s env1).state env2).err = some e2 := by
      rw [← cycle_err]
      exact h2
    rw [cycle_sent_error _ env2 e2 hs hk2, cycleTry_error_sent _ env2 e2 hs]
    rfl

/-- Witness for C2 (amended): a first cycle failing on the empty payload and
a second failing on the `archived` record — different signatures — each send
their own alert (two in total). -/
theorem C2_alert_witness :
    (cycle ⟨.jint 50, .jnull⟩ (envFor payloadEmpty)).sent
      = ["Сбой в работе программы: " ++ emptyJsonErr.msg]
    ∧ (cycle (cycle ⟨.jint 50, .jnull⟩ (envFor payloadEmpty)).state
        (envFor payloadArchived)).sent
      = ["Сбой в работе программы: " ++ noStatusErr.msg] :=
  C2_alert_every_failing_cycle ⟨.jint 50, .jnull⟩ (envFor payloadEmpty)
    (envFor payloadArchived) emptyJsonErr noStatusErr rfl (by decide) rfl (by decide)
